import Mathlib

/-!
Verification of `scripts/lifx-lights/evening-lights.py`.

Shallow embedding conventions:
* A UTC instant is an `Int`: seconds since an arbitrary epoch.  One day is
  86400 seconds; `21:00` is second 75600 of a day.  Python extracts the
  calendar date of a datetime by flooring, which is `Int.ediv` for the
  positive divisor 86400.
* Durations handed to the LIFX API (`timedelta` in the source) are modelled
  at one-second resolution, so `int(1000 * duration.total_seconds())` is the
  exact integer `1000 * duration`.
* The local timezone of the host is modelled as a pair of conversion
  functions (`toLocal`, `fromLocal`): `datetime.astimezone()` on a UTC value
  is `toLocal`, and interpreting a naive local datetime as system-local and
  converting to UTC (`.astimezone(timezone.utc)`) is `fromLocal`.  Leaving
  both functions arbitrary covers DST boundaries; `offsetTz o` is the
  fixed-offset special case.
* The external sunrise-sunset HTTP service is an opaque parameter
  `service : Int → Option (Int × Int)`, mapping the UTC calendar day of the
  request to `(sunrise, sunset)`; `none` stands for every failure mode that
  makes `requests.get(...).json()["results"]` / `strptime` raise (network
  error, non-2xx, malformed JSON, unparsable timestamp).
* Python exceptions are the error side of `Except PyErr`.
-/

/-- The Python exceptions that can cross the boundaries modelled here. -/
inductive PyErr where
  | typeError
  | requestFailure
  | timeoutError
  | indexError
  | valueError
  | keyboardInterrupt
deriving DecidableEq, Repr

/-- Seconds in a day. -/
def daySecs : Int := 86400

/-- Calendar day of a UTC instant: Python `.date()` floors, and `Int`
division (`Int.ediv`) is floor division for the positive divisor 86400. -/
def dateOf (t : Int) : Int := t / daySecs

/-- The host's local timezone, as the two conversions the script uses. -/
structure Tz where
  toLocal : Int → Int
  fromLocal : Int → Int

/-- A fixed-offset timezone (offset in seconds east of UTC). -/
def offsetTz (o : Int) : Tz := ⟨fun t => t + o, fun t => t - o⟩

/-- The UTC "timezone" (offset 0); the local clock of a host running in UTC. -/
def utcTz : Tz := offsetTz 0

/-- First argument of `datetime.combine` as the script can produce it: either
a genuine `datetime.date` (day number), or — the slip on source line 89 —
the *bound method* `datetime.date` obtained by writing `.date` without
calling it. -/
inductive PyDateArg where
  | dateObj (day : Int)
  | boundMethod (recv : Int)
deriving DecidableEq, Repr

/-- Python `datetime.combine(date, time)`: requires an actual `datetime.date`;
handing it anything else (such as a bound method) raises `TypeError`.
On success it yields the naive local datetime `day*86400 + timeOfDay`. -/
def datetime_combine : PyDateArg → Int → Except PyErr Int
  | .dateObj day, timeOfDay => .ok (day * daySecs + timeOfDay)
  | .boundMethod _, _ => .error .typeError

/-- Source `utc_datetime(date, time)`:
`datetime.combine(date, time).astimezone(timezone.utc)`. -/
def utc_datetime (tz : Tz) (d : PyDateArg) (timeOfDay : Int) : Except PyErr Int :=
  (datetime_combine d timeOfDay).map tz.fromLocal

/-- Source `sleep_until(then, timeout)`: returns the new value of the clock
on normal return.  `if timeout and timeout < wait_time` — a `timedelta` is
falsy exactly when it is zero, so a zero timeout is skipped; a negative
(truthy) timeout smaller than the wait reaches `time.sleep` with a negative
argument, which raises `ValueError`. -/
def sleep_until (now thenT : Int) (timeout : Option Int) : Except PyErr Int :=
  let wait := thenT - now
  match timeout with
  | some t =>
    if t ≠ 0 ∧ t < wait then
      if t < 0 then .error .valueError else .error .timeoutError
    else if 0 < wait then .ok (now + wait) else .ok now
  | none => if 0 < wait then .ok (now + wait) else .ok now

/-- Source `request_sunrise_sunset(lat, lng, date)`: the HTTP GET keyed by the
UTC calendar date of `date` (`date.strftime("%Y-%m-%d")`); every failure mode
of the request/parse is the error case. -/
def request_sunrise_sunset (service : Int → Option (Int × Int)) (dateDt : Int) :
    Except PyErr (Int × Int) :=
  match service (dateOf dateDt) with
  | some pair => .ok pair
  | none => .error .requestFailure

/-- Source `get_sunset_or_default(lat, lng, date)`.  On request failure the
source computes `local_date = date.astimezone().date` — without the call
parentheses, so `local_date` is the bound method, not a date — and then
`utc_datetime(local_date, time(18,0,0))`, whose `datetime.combine` raises
`TypeError`. -/
def get_sunset_or_default (tz : Tz) (service : Int → Option (Int × Int))
    (dateDt : Int) : Except PyErr Int :=
  match request_sunrise_sunset service dateDt with
  | .ok pair => .ok pair.2
  | .error _ =>
      let local_date : PyDateArg := .boundMethod (tz.toLocal dateDt)
      let local_time : Int := 18 * 3600
      utc_datetime tz local_date local_time

/-- Source `next_sunset(lat, lng)`.  The second component counts how many
calls to `get_sunset_or_default` (hence external requests) were made. -/
def next_sunset (tz : Tz) (service : Int → Option (Int × Int)) (now : Int) :
    Except PyErr (Int × Nat) := do
  let sunset ← get_sunset_or_default tz service now
  if now < sunset then
    return (sunset, 1)
  else
    let sunset2 ← get_sunset_or_default tz service (now + daySecs)
    return (sunset2, 2)

/-- HSBK color: (hue, saturation, brightness, kelvin). -/
def Color := Int × Int × Int × Int
deriving DecidableEq, Repr

/-- A command sent to the controlled LIFX group by `LampState.apply`, in
order.  `"on"` / `"off"` are the literal strings the source passes;
durations are in milliseconds; `settleSleep` is the fixed `time.sleep(0.25)`
between the two dependent commands. -/
inductive GroupCmd where
  | setPower (level : String) (durationMs : Int)
  | settleSleep
  | setColor (c : Color) (durationMs : Int)
deriving DecidableEq, Repr

/-- Source class `LampState`: named (power, color) target. -/
structure LampState where
  name : String
  power : Bool
  color : Color
deriving DecidableEq, Repr

/-- Source `LampState.apply(lights, duration)`: the exact command trace sent
to the group.  `duration` is in seconds (model resolution), and
`duration_ms = int(1000 * duration.total_seconds())`. -/
def LampState.apply (s : LampState) (duration : Int) : List GroupCmd :=
  let duration_ms := 1000 * duration
  if s.power then
    [.setPower "on" duration_ms, .settleSleep, .setColor s.color duration_ms]
  else
    [.setColor s.color duration_ms, .settleSleep, .setPower "off" duration_ms]

/-- Source `LampState.equals`: structural equality on (power, color). -/
def LampState.equals (s other : LampState) : Bool :=
  s.power == other.power && s.color == other.color

/-- Source class `TimeEvent`: a scheduled transition.  `time` is a UTC
instant (seconds); `fade` a duration in seconds (source default 4 s). -/
structure TimeEvent where
  name : String
  time : Int
  state : LampState
  fade : Int := 4
deriving DecidableEq, Repr

/-- The comparison `Timeline.insert`'s sort uses: `TimeEvent.__lt__` compares
only `time`, so Python's stable sort orders by `time`, ties kept in list
order. -/
def timeLe (a b : TimeEvent) : Bool := decide (a.time ≤ b.time)

/-- Source class `Timeline`: the `self.timeline` list. -/
abbrev Timeline : Type := List TimeEvent

/-- Source `Timeline.insert(ev)`: `append` then stable `sort()`
(modelled by the stable `List.mergeSort`). -/
def Timeline.insert (tl : Timeline) (ev : TimeEvent) : Timeline :=
  List.mergeSort (tl ++ [ev]) timeLe

/-- Source `Timeline.pop(timeout)`: reads `self.timeline[0].time` (raising
`IndexError` on an empty list), sleeps until it (or raises), then removes
and returns the head.  On success the result is
(event, remaining timeline, clock after the sleep). -/
def Timeline.pop (tl : Timeline) (now : Int) (timeout : Option Int) :
    Except PyErr (TimeEvent × Timeline × Int) :=
  match tl with
  | [] => .error .indexError
  | ev :: rest =>
    match sleep_until now ev.time timeout with
    | .error e => .error e
    | .ok now2 => .ok (ev, rest, now2)

/-- A timeline is sorted by event time. -/
def sortedByTime (tl : Timeline) : Prop :=
  List.Pairwise (fun a b => a.time ≤ b.time) tl

/-- A LIFX device as the script observes it: stable hardware address plus
current power level (the raw integer `get_power` returns) and color. -/
structure Device where
  mac_addr : String
  power : Int
  color : Color
deriving DecidableEq, Repr

/-- One entry of `save_current_states`: the tuple
`(dev.mac_addr, dev.get_power(), dev.get_color())` — index 0 mac, 1 power,
2 color. -/
abbrev SavedState : Type := String × Int × Color

/-- A command sent to an individual device by `reset_device_states`
(`dev.set_power(p)` / `dev.set_color(c)` take no duration there). -/
inductive DevCmd where
  | setPower (mac : String) (level : Int)
  | setColor (mac : String) (c : Color)
deriving DecidableEq, Repr

/-- Source `save_current_states(devices)`. -/
def save_current_states (devices : List Device) : List SavedState :=
  devices.map (fun dev => (dev.mac_addr, dev.power, dev.color))

/-- Body of the `reset_device_states` loop for one `(dev, saved_state)`
pair: `current_state = (dev.mac_addr, dev.get_power(), dev.get_color())`,
then one `set_power` if index 1 differs and one `set_color` if index 2
differs.  `current_state[0]` (the re-read mac) is never compared with
`saved_state[0]`. -/
def reset_pair (dev : Device) (saved_state : SavedState) : List DevCmd :=
  (if dev.power ≠ saved_state.2.1 then [.setPower dev.mac_addr saved_state.2.1] else [])
    ++ (if dev.color ≠ saved_state.2.2 then [.setColor dev.mac_addr saved_state.2.2] else [])

/-- Source `reset_device_states(devices, saved_states)`:
`for i, dev in enumerate(devices): saved_state = saved_states[i] ...` — the
positional lookup raises `IndexError` when `saved_states` is shorter. -/
def reset_device_states : List Device → List SavedState → Except PyErr (List DevCmd)
  | [], _ => .ok []
  | _ :: _, [] => .error .indexError
  | dev :: devs, s :: ss =>
    match reset_device_states devs ss with
    | .ok rest => .ok (reset_pair dev s ++ rest)
    | .error e => .error e

/-- Source `fill_timeline` after its `next_sunset` call, as a function of the
sunset anchor: builds the three `LampState`s, derives the local date of the
sunset (`sunset.astimezone().date()` — with the call parentheses, correctly,
this time), and inserts the three events.  Constants from the source:
`SUNSET_OFFSET = -30 min`, `TRANSITION_DURATION = 5 min`, nighttime at 21:00
local, lights-off 3 h later. -/
def fill_timeline_from (tz : Tz) (sunset : Int) (timeline : Timeline) :
    Except PyErr Timeline := do
  let COLOR_NIGHT_LIGHT : Color := (8402, 0, 49151, 2000)
  let COLOR_NEUTRAL_LIGHT : Color := (8402, 0, 65535, 3500)
  let SUNSET_OFFSET : Int := -(30 * 60)
  let TRANSITION_DURATION : Int := 5 * 60
  let state_evening : LampState := ⟨"Evening Lights", true, COLOR_NEUTRAL_LIGHT⟩
  let state_night : LampState := ⟨"Night Lights", true, COLOR_NIGHT_LIGHT⟩
  let state_off : LampState := ⟨"Lights Off", false, COLOR_NIGHT_LIGHT⟩
  let fade := TRANSITION_DURATION
  let local_date := dateOf (tz.toLocal sunset)
  let evening := sunset + SUNSET_OFFSET
  let tl1 := timeline.insert ⟨"Evening", evening, state_evening, fade⟩
  let nighttime ← utc_datetime tz (.dateObj local_date) (21 * 3600)
  let tl2 := tl1.insert ⟨"Nightime", nighttime, state_night, fade⟩
  let lightsoff := nighttime + 3 * 3600
  let tl3 := tl2.insert ⟨"Lights Off", lightsoff, state_off, fade⟩
  return tl3

/-- Source `fill_timeline(timeline)`: `sunset = next_sunset(LAT, LONG)` then
the event construction; any exception escaping `next_sunset` escapes
`fill_timeline` too. -/
def fill_timeline (tz : Tz) (service : Int → Option (Int × Int)) (now : Int)
    (timeline : Timeline) : Except PyErr Timeline := do
  let (sunset, _) ← next_sunset tz service now
  fill_timeline_from tz sunset timeline

/-- Where, if anywhere, the operator's `KeyboardInterrupt` is delivered
during one iteration of the `while True` loop in `main`.  `duringPop` is
delivery while blocked in `timeline.pop` (awaiting), `duringTrigger` while
`event.trigger` runs, `duringFill` while `fill_timeline` runs inside the
`except IndexError` handler. -/
inductive InterruptAt where
  | noInterrupt
  | duringPop
  | duringTrigger
  | duringFill
deriving DecidableEq, Repr

/-- Outcome of one iteration of the scheduler loop in `main`. -/
inductive StepResult where
  /-- The loop body completed (or a handled signal was absorbed) and the
  loop iterates again with this timeline and clock. -/
  | next (timeline : Timeline) (now : Int)
  /-- The `except KeyboardInterrupt` handler ran: `reset_device_states`
  then `break` — the flag records that the snapshot restore ran. -/
  | shutdown (restored : Bool)
  /-- An exception escaped the `try` statement uncaught, terminating the
  process without restoring the snapshot. -/
  | crash (e : PyErr)
deriving DecidableEq, Repr

/-- One iteration of the `while True` loop of `main`, under Python's
`try`/`except` semantics: the `try` body is
`event = timeline.pop(timeout=None); event.trigger(ctrl_group)`; an
exception raised in the body is matched against the `except` clauses, but
an exception raised *inside a handler* (such as a `KeyboardInterrupt`
delivered while `fill_timeline` runs in the `except IndexError` handler)
propagates out of the whole `try` statement unmatched. -/
def scheduler_step (tz : Tz) (service : Int → Option (Int × Int))
    (timeline : Timeline) (now : Int) (intr : InterruptAt) : StepResult :=
  let body : Except PyErr (Timeline × Int) :=
    if intr = .duringPop then .error .keyboardInterrupt
    else
      match timeline.pop now none with
      | .error e => .error e
      | .ok (_, rest, now2) =>
        if intr = .duringTrigger then .error .keyboardInterrupt
        else .ok (rest, now2)
  match body with
  | .ok (rest, now2) => .next rest now2
  | .error .indexError =>
    if intr = .duringFill then .crash .keyboardInterrupt
    else
      match fill_timeline tz service now timeline with
      | .ok filled => .next filled now
      | .error e => .crash e
  | .error .timeoutError => .next timeline now
  | .error .keyboardInterrupt => .shutdown true
  | .error e => .crash e

/-- Recognizer for `set_power` device commands (for counting). -/
def DevCmd.isSetPower : DevCmd → Bool
  | .setPower _ _ => true
  | _ => false

/-- Recognizer for `set_color` device commands (for counting). -/
def DevCmd.isSetColor : DevCmd → Bool
  | .setColor _ _ => true
  | _ => false

/-- Demonstration events for witnesses and counterexamples. -/
def evDemoA : TimeEvent := ⟨"A", 10, ⟨"s", true, (0, 0, 0, 0)⟩, 4⟩

/-- Second demonstration event (later timestamp). -/
def evDemoB : TimeEvent := ⟨"B", 20, ⟨"s", true, (0, 0, 0, 0)⟩, 4⟩

/-- Demonstration event used for the timeout claims. -/
def evDemoC : TimeEvent := ⟨"E", 600, ⟨"s", true, (0, 0, 0, 0)⟩, 4⟩

/-- A contract-honoring demonstration service: sunrise 06:00 UTC, sunset
18:00 UTC on every requested day. -/
def demoService : Int → Option (Int × Int) := fun day =>
  some (day * daySecs + 21600, day * daySecs + 64800)

/-! ## Helper lemmas -/

lemma timeLe_trans :
    ∀ a b c : TimeEvent, timeLe a b = true → timeLe b c = true → timeLe a c = true := by
  intro a b c hab hbc
  simp only [timeLe, decide_eq_true_eq] at *
  omega

lemma timeLe_total : ∀ a b : TimeEvent, (timeLe a b || timeLe b a) = true := by
  intro a b
  simp only [timeLe, Bool.or_eq_true, decide_eq_true_eq]
  omega

lemma sortedByTime_insert (tl : Timeline) (ev : TimeEvent) :
    sortedByTime (Timeline.insert tl ev) := by
  have h := List.sorted_mergeSort timeLe_trans timeLe_total (tl ++ [ev])
  exact h.imp (by intro a b hab; simpa [timeLe] using hab)

lemma insert_perm (tl : Timeline) (ev : TimeEvent) :
    (Timeline.insert tl ev).Perm (tl ++ [ev]) :=
  List.mergeSort_perm _ _

lemma sleep_until_ok_eq {now thenT : Int} {timeout : Option Int} {n : Int}
    (h : sleep_until now thenT timeout = .ok n) : n = max now thenT := by
  rw [max_def]
  cases timeout with
  | none =>
    simp only [sleep_until] at h
    split_ifs at h <;> simp only [Except.ok.injEq] at h <;> split_ifs <;> omega
  | some t =>
    simp only [sleep_until] at h
    by_cases hA : t ≠ 0 ∧ t < thenT - now
    · rw [if_pos hA] at h
      split_ifs at h
    · rw [if_neg hA] at h
      split_ifs at h <;> simp only [Except.ok.injEq] at h <;> split_ifs <;> omega

lemma sleep_until_none_ok (now thenT : Int) :
    sleep_until now thenT none = .ok (max now thenT) := by
  rw [max_def]
  simp only [sleep_until]
  split_ifs <;> simp only [Except.ok.injEq] <;> omega

lemma pop_cons_none (e : TimeEvent) (rest : Timeline) (now : Int) :
    Timeline.pop (e :: rest) now none = .ok (e, rest, max now e.time) := by
  simp only [Timeline.pop, sleep_until_none_ok]

/-! ## Claim theorems -/

/-- C1: the claim says that on any request failure `get_sunset_or_default`
returns exactly 18:00 local time on the requested date (as UTC) and never
raises.  The code instead raises: the fallback writes
`date.astimezone().date` without calling it, so `datetime.combine` receives
a bound method and raises `TypeError`, which escapes the `except` block.
This theorem evaluates the code on every failing input: whenever the
request fails, `get_sunset_or_default` raises `TypeError` — it does not
return a value at all, in any timezone and at any requested date. -/
theorem c1_fallback_raises_instead_of_default (tz : Tz)
    (service : Int → Option (Int × Int)) (dateDt : Int)
    (hfail : service (dateOf dateDt) = none) :
    get_sunset_or_default tz service dateDt = .error .typeError := by
  simp [get_sunset_or_default, request_sunrise_sunset, hfail, utc_datetime,
    datetime_combine, Except.map]

/-- Witness for C1 at a concrete failing input: an unreachable service,
request date = instant 0, UTC local timezone. -/
theorem c1_fallback_raises_witness :
    (fun _ : Int => (none : Option (Int × Int))) (dateOf 0) = none ∧
    get_sunset_or_default utcTz (fun _ => none) 0 = .error .typeError :=
  ⟨rfl, c1_fallback_raises_instead_of_default utcTz (fun _ => none) 0 rfl⟩

/-- C6: `Timeline.pop` on an empty timeline raises `IndexError` immediately
— the source reads `self.timeline[0].time` before ever calling
`sleep_until`, so no sleep happens and the timeout argument is irrelevant. -/
theorem c6_pop_empty_raises_immediately (now : Int) (timeout : Option Int) :
    Timeline.pop [] now timeout = .error .indexError := rfl

/-- C7: `LampState.apply` issues its two device commands in the mandated
order with the settle delay between them — power before color when turning
on, color before power when turning off — and the fade duration, converted
to milliseconds, is passed to both commands. -/
theorem c7_apply_command_order (s : LampState) (duration : Int) :
    (s.power = true →
      s.apply duration =
        [.setPower "on" (1000 * duration), .settleSleep,
          .setColor s.color (1000 * duration)]) ∧
    (s.power = false →
      s.apply duration =
        [.setColor s.color (1000 * duration), .settleSleep,
          .setPower "off" (1000 * duration)]) := by
  constructor <;> intro h <;> simp [LampState.apply, h]

/-- Witness for C7: the `Evening Lights` state with the source's 5-minute
fade sends power-on, settles, then sets color, with 300000 ms on both. -/
theorem c7_apply_command_order_witness :
    LampState.apply ⟨"Evening Lights", true, (8402, 0, 65535, 3500)⟩ 300 =
      [.setPower "on" 300000, .settleSleep,
        .setColor (8402, 0, 65535, 3500) 300000] :=
  (c7_apply_command_order ⟨"Evening Lights", true, (8402, 0, 65535, 3500)⟩ 300).1 rfl

/-- C8: for every device and snapshot entry, the restore routine issues
zero commands when the current (power, color) equals the snapshot,
exactly one `set_power` iff the powers differ and exactly one `set_color`
iff the colors differ. -/
theorem c8_restore_minimal_commands (dev : Device) (s : SavedState) :
    reset_device_states [dev] [s] = .ok (reset_pair dev s) ∧
    (dev.power = s.2.1 ∧ dev.color = s.2.2 → reset_pair dev s = []) ∧
    (reset_pair dev s).countP DevCmd.isSetPower =
      (if dev.power = s.2.1 then 0 else 1) ∧
    (reset_pair dev s).countP DevCmd.isSetColor =
      (if dev.color = s.2.2 then 0 else 1) := by
  refine ⟨by simp [reset_device_states], ?_, ?_, ?_⟩
  · rintro ⟨h1, h2⟩
    simp [reset_pair, h1, h2]
  · by_cases h1 : dev.power = s.2.1 <;> by_cases h2 : dev.color = s.2.2 <;>
      simp [reset_pair, h1, h2, DevCmd.isSetPower, DevCmd.isSetColor]
  · by_cases h1 : dev.power = s.2.1 <;> by_cases h2 : dev.color = s.2.2 <;>
      simp [reset_pair, h1, h2, DevCmd.isSetPower, DevCmd.isSetColor]

/-- Witness for C8: a device whose state equals its snapshot entry gets
zero commands. -/
theorem c8_restore_minimal_commands_witness :
    reset_device_states [⟨"d1", 65535, (1, 2, 3, 4)⟩] [("d1", 65535, (1, 2, 3, 4))] =
      .ok [] ∧
    reset_pair ⟨"d1", 65535, (1, 2, 3, 4)⟩ ("d1", 65535, (1, 2, 3, 4)) = [] := by
  have h := c8_restore_minimal_commands ⟨"d1", 65535, (1, 2, 3, 4)⟩
    ("d1", 65535, (1, 2, 3, 4))
  exact ⟨h.1.trans (by rw [h.2.1 ⟨rfl, rfl⟩]), h.2.1 ⟨rfl, rfl⟩⟩

/-- C4: in any timeline reachable by insertions (`insert` always leaves the
list sorted by time, and the empty initial list is trivially sorted), a
successful `pop` returns the head — the event of globally minimal
timestamp — removes exactly it, keeps the remainder sorted, and returns at
clock `max now e.time`: never before the event's timestamp, and immediately
(no negative sleep) when that timestamp is already in the past. -/
theorem c4_pop_returns_global_min :
    (∀ (tl : Timeline) (ev : TimeEvent), sortedByTime (Timeline.insert tl ev)) ∧
    (∀ (tl : Timeline) (now : Int) (timeout : Option Int) (e : TimeEvent)
        (rest : Timeline) (now2 : Int),
      sortedByTime tl → Timeline.pop tl now timeout = .ok (e, rest, now2) →
      tl = e :: rest ∧ (∀ e2 ∈ rest, e.time ≤ e2.time) ∧ sortedByTime rest ∧
        now2 = max now e.time ∧ e.time ≤ now2 ∧ (e.time ≤ now → now2 = now)) := by
  constructor
  · exact sortedByTime_insert
  · intro tl now timeout e rest now2 hs hpop
    cases tl with
    | nil => simp [Timeline.pop] at hpop
    | cons e0 rest0 =>
      simp only [Timeline.pop] at hpop
      cases hsleep : sleep_until now e0.time timeout with
      | error err => rw [hsleep] at hpop; exact absurd hpop (by simp)
      | ok n =>
        rw [hsleep] at hpop
        simp only [Except.ok.injEq, Prod.mk.injEq] at hpop
        obtain ⟨he, hrest, hnow⟩ := hpop
        subst he hrest hnow
        have hmax := sleep_until_ok_eq hsleep
        have hpw := List.pairwise_cons.mp hs
        refine ⟨rfl, hpw.1, hpw.2, hmax, ?_, ?_⟩
        · rw [hmax]
          exact le_max_right _ _
        · intro hpast
          rw [hmax]
          exact max_eq_left hpast

/-- Witness for C4: popping the sorted two-event timeline at clock 0 returns
the earlier event and sleeps to its timestamp. -/
theorem c4_pop_returns_global_min_witness :
    [evDemoA, evDemoB] = evDemoA :: [evDemoB] ∧
    (∀ e2 ∈ [evDemoB], evDemoA.time ≤ e2.time) ∧ sortedByTime [evDemoB] ∧
    (10 : Int) = max 0 evDemoA.time ∧ evDemoA.time ≤ 10 ∧
    (evDemoA.time ≤ 0 → (10 : Int) = 0) :=
  c4_pop_returns_global_min.2 [evDemoA, evDemoB] 0 none evDemoA [evDemoB] 10
    (by simp [sortedByTime, evDemoA, evDemoB]) (by rfl)

/-- C5 counterexample: a zero timeout elapses (now + 0 is before the
event's time, 600) yet `pop` does not raise the timeout signal — the
source's `if timeout and timeout < wait_time` treats the falsy
`timedelta(0)` as "no timeout" and blocks until the event instead. -/
theorem c5_zero_timeout_counterexample :
    (0 : Int) + 0 < 600 ∧
    Timeline.pop [evDemoC] 0 (some 0) = .ok (evDemoC, [], 600) ∧
    Timeline.pop [evDemoC] 0 (some 0) ≠ .error .timeoutError := by
  have hpop : Timeline.pop [evDemoC] 0 (some 0) = .ok (evDemoC, [], 600) := rfl
  exact ⟨by decide, hpop, by rw [hpop]; exact fun h => Except.noConfusion h⟩

/-- C5 (amended): for every *nonzero positive* timeout that elapses before
the earliest queued event's time, `pop` raises `TimeoutError`; the error
return carries no timeline, so the caller's queue is unchanged. -/
theorem c5_positive_timeout_raises (e : TimeEvent) (rest : Timeline)
    (now t : Int) (hpos : 0 < t) (hbefore : now + t < e.time) :
    Timeline.pop (e :: rest) now (some t) = .error .timeoutError := by
  simp only [Timeline.pop, sleep_until]
  rw [if_pos ⟨by omega, by omega⟩, if_neg (by omega : ¬t < 0)]

/-- Witness for C5 (amended): a 60-second timeout against an event 600
seconds away raises the timeout signal. -/
theorem c5_positive_timeout_raises_witness :
    (0 : Int) < 60 ∧ (0 : Int) + 60 < evDemoC.time ∧
    Timeline.pop [evDemoC] 0 (some 60) = .error .timeoutError :=
  ⟨by decide, by decide,
    c5_positive_timeout_raises evDemoC [] 0 60 (by decide) (by decide)⟩

/-- C2 counterexample: with a healthy service and an empty timeline, a
cancellation (KeyboardInterrupt) delivered while `fill_timeline` runs —
i.e. inside the `except IndexError` handler — propagates out of the `try`
statement unmatched by the sibling `except KeyboardInterrupt` clause: the
outcome is an uncaught crash, not the shutdown path, and the snapshot
restore does not run. -/
theorem c2_interrupt_during_refill_counterexample :
    scheduler_step utcTz (fun d => some (d * 86400 + 21600, d * 86400 + 64800))
        [] 0 .duringFill = .crash .keyboardInterrupt ∧
    StepResult.crash .keyboardInterrupt ≠ StepResult.shutdown true :=
  ⟨rfl, fun h => StepResult.noConfusion h⟩

/-- C2 (amended): a cancellation delivered while awaiting an event (inside
the blocking `pop`) or during a trigger is caught by the
`except KeyboardInterrupt` clause: the snapshot restore runs and the loop
terminates.  (Delivery during the refill routine is *not* covered — see the
counterexample.) -/
theorem c2_interrupt_await_or_trigger_restores (tz : Tz)
    (service : Int → Option (Int × Int)) (tl : Timeline) (now : Int) :
    scheduler_step tz service tl now .duringPop = .shutdown true ∧
    (tl ≠ [] →
      scheduler_step tz service tl now .duringTrigger = .shutdown true) := by
  constructor
  · rfl
  · intro hne
    cases tl with
    | nil => exact absurd rfl hne
    | cons e rest => simp [scheduler_step, pop_cons_none]

/-- Witness for C2 (amended) on a concrete nonempty timeline. -/
theorem c2_interrupt_await_or_trigger_restores_witness :
    scheduler_step utcTz (fun _ => none) [evDemoA] 0 .duringPop =
      .shutdown true ∧
    scheduler_step utcTz (fun _ => none) [evDemoA] 0 .duringTrigger =
      .shutdown true := by
  have h := c2_interrupt_await_or_trigger_restores utcTz (fun _ => none) [evDemoA] 0
  exact ⟨h.1, h.2 (List.cons_ne_nil _ _)⟩

/-- C3 counterexample: with the host clock in UTC and a sunset anchor at
22:00 UTC on day 0 (instant 79200), the refill routine still inserts three
events, but `Evening` lands at 77400 while `Nightime` is at 75600: the
claimed strict order `Evening < Nighttime` fails for this sunset anchor. -/
theorem c3_ordering_counterexample :
    (fill_timeline_from utcTz 79200 []).map (List.map fun e => (e.name, e.time)) =
      .ok [("Nightime", 75600), ("Evening", 77400), ("Lights Off", 86400)] ∧
    ¬ ((77400 : Int) < 75600) := by
  constructor
  · simp +decide [fill_timeline_from, Timeline.insert, utc_datetime,
      datetime_combine, utcTz, offsetTz, dateOf, daySecs, timeLe,
      List.mergeSort, List.splitInTwo, List.splitAt, List.splitAt.go,
      List.merge, Except.map, Except.bind, bind, pure, Except.pure]
  · decide

/-- Shape of the refill result: the three inserts, with the sunset offset,
nighttime clock time and fade constants folded to numerals. -/
lemma fill_timeline_from_eq (tz : Tz) (sunset : Int) (tl : Timeline) :
    fill_timeline_from tz sunset tl = .ok
      (((tl.insert ⟨"Evening", sunset - 1800,
          ⟨"Evening Lights", true, (8402, 0, 65535, 3500)⟩, 300⟩).insert
        ⟨"Nightime", tz.fromLocal (dateOf (tz.toLocal sunset) * daySecs + 75600),
          ⟨"Night Lights", true, (8402, 0, 49151, 2000)⟩, 300⟩).insert
        ⟨"Lights Off",
          tz.fromLocal (dateOf (tz.toLocal sunset) * daySecs + 75600) + 10800,
          ⟨"Lights Off", false, (8402, 0, 49151, 2000)⟩, 300⟩) := rfl

/-- C3 (amended): every execution of the refill routine inserts exactly
three events (`Evening`, `Nightime`, `Lights Off`) for every sunset anchor
and every timezone, and `Nighttime < LightsOff` always holds; but
`Evening < Nighttime` holds only when the sunset anchor is early enough —
for a fixed-offset timezone, exactly when the local time of day of the
sunset is before 21:30 (77400 s). -/
theorem c3_fill_three_events (tz : Tz) (sunset : Int) (tl : Timeline) (o : Int) :
    ∃ tl2,
      fill_timeline_from tz sunset tl = .ok tl2 ∧
      tl2.Perm (tl ++
        [⟨"Evening", sunset - 1800,
            ⟨"Evening Lights", true, (8402, 0, 65535, 3500)⟩, 300⟩,
          ⟨"Nightime", tz.fromLocal (dateOf (tz.toLocal sunset) * daySecs + 75600),
            ⟨"Night Lights", true, (8402, 0, 49151, 2000)⟩, 300⟩,
          ⟨"Lights Off",
            tz.fromLocal (dateOf (tz.toLocal sunset) * daySecs + 75600) + 10800,
            ⟨"Lights Off", false, (8402, 0, 49151, 2000)⟩, 300⟩]) ∧
      tl2.length = tl.length + 3 ∧
      tz.fromLocal (dateOf (tz.toLocal sunset) * daySecs + 75600) <
        tz.fromLocal (dateOf (tz.toLocal sunset) * daySecs + 75600) + 10800 ∧
      ((sunset + o) % daySecs < 77400 →
        sunset - 1800 <
          (offsetTz o).fromLocal
            (dateOf ((offsetTz o).toLocal sunset) * daySecs + 75600)) := by
  have hperm :
      (((tl.insert ⟨"Evening", sunset - 1800,
          ⟨"Evening Lights", true, (8402, 0, 65535, 3500)⟩, 300⟩).insert
            ⟨"Nightime", tz.fromLocal (dateOf (tz.toLocal sunset) * daySecs + 75600),
              ⟨"Night Lights", true, (8402, 0, 49151, 2000)⟩, 300⟩).insert
            ⟨"Lights Off",
              tz.fromLocal (dateOf (tz.toLocal sunset) * daySecs + 75600) + 10800,
              ⟨"Lights Off", false, (8402, 0, 49151, 2000)⟩, 300⟩).Perm
        (tl ++
          [⟨"Evening", sunset - 1800,
              ⟨"Evening Lights", true, (8402, 0, 65535, 3500)⟩, 300⟩,
            ⟨"Nightime", tz.fromLocal (dateOf (tz.toLocal sunset) * daySecs + 75600),
              ⟨"Night Lights", true, (8402, 0, 49151, 2000)⟩, 300⟩,
            ⟨"Lights Off",
              tz.fromLocal (dateOf (tz.toLocal sunset) * daySecs + 75600) + 10800,
              ⟨"Lights Off", false, (8402, 0, 49151, 2000)⟩, 300⟩]) := by
    refine ((insert_perm _ _).trans ?_)
    refine (((insert_perm _ _).append_right _).trans ?_)
    refine ((((insert_perm _ _).append_right _).append_right _).trans ?_)
    simp
  refine ⟨_, fill_timeline_from_eq tz sunset tl, hperm, ?_, by omega, ?_⟩
  · rw [hperm.length_eq]
    simp
  · intro hlt
    simp only [offsetTz, dateOf, daySecs] at *
    omega

/-- Witness for C3 (amended): a UTC host with sunset at 18:00 (64800 —
local time of day before 21:30) gets three events and the Evening event
strictly before the Nighttime instant. -/
theorem c3_fill_three_events_witness :
    ∃ tl2, fill_timeline_from utcTz 64800 [] = .ok tl2 ∧
      tl2.length = 0 + 3 ∧
      (64800 : Int) - 1800 <
        (offsetTz 0).fromLocal (dateOf ((offsetTz 0).toLocal 64800) * daySecs + 75600) := by
  obtain ⟨tl2, heq, hperm, hlen, hord, himp⟩ := c3_fill_three_events utcTz 64800 [] 0
  exact ⟨tl2, heq, by simpa using hlen, himp (by decide)⟩

/-- C9: provided the external service honors its contract — for each
requested calendar day it returns a (sunrise, sunset) pair whose sunset
lies within that UTC day — `next_sunset` returns today's sunset with a
single oracle call when it is still strictly in the future, otherwise
requests and returns tomorrow's sunset (second call), and in either case
the returned instant is strictly after "now". -/
theorem c9_next_sunset_future (tz : Tz) (service : Int → Option (Int × Int))
    (now : Int)
    (hsvc : ∀ day : Int, ∃ sr ss, service day = some (sr, ss) ∧
      day * daySecs ≤ ss ∧ ss < (day + 1) * daySecs) :
    ∃ sr ss, service (dateOf now) = some (sr, ss) ∧
      (now < ss → next_sunset tz service now = .ok (ss, 1)) ∧
      (ss ≤ now → ∃ sr2 ss2, service (dateOf now + 1) = some (sr2, ss2) ∧
        next_sunset tz service now = .ok (ss2, 2)) ∧
      (∀ r k, next_sunset tz service now = .ok (r, k) → now < r) := by
  obtain ⟨sr, ss, hs, hlo, hhi⟩ := hsvc (dateOf now)
  have hget : get_sunset_or_default tz service now = .ok ss := by
    simp [get_sunset_or_default, request_sunrise_sunset, hs]
  have hd1 : dateOf (now + daySecs) = dateOf now + 1 := by
    simp only [dateOf, daySecs]
    omega
  obtain ⟨sr2, ss2, hs2, hlo2, hhi2⟩ := hsvc (dateOf now + 1)
  have hget2 : get_sunset_or_default tz service (now + daySecs) = .ok ss2 := by
    simp [get_sunset_or_default, request_sunrise_sunset, hd1, hs2]
  have hnowlt : now < (dateOf now + 1) * daySecs := by
    simp only [dateOf, daySecs]
    omega
  refine ⟨sr, ss, hs, ?_, ?_, ?_⟩
  · intro hlt
    simp [next_sunset, hget, hlt, Except.bind, bind, pure, Except.pure]
  · intro hle
    have hnotlt : ¬ now < ss := by omega
    exact ⟨sr2, ss2, hs2, by
      simp [next_sunset, hget, hnotlt, hget2, Except.bind, bind, pure, Except.pure]⟩
  · intro r k hok
    by_cases hlt : now < ss
    · have h1 : next_sunset tz service now = .ok (ss, 1) := by
        simp [next_sunset, hget, hlt, Except.bind, bind, pure, Except.pure]
      rw [h1] at hok
      simp only [Except.ok.injEq, Prod.mk.injEq] at hok
      omega
    · have h2 : next_sunset tz service now = .ok (ss2, 2) := by
        simp [next_sunset, hget, hlt, hget2, Except.bind, bind, pure, Except.pure]
      rw [h2] at hok
      simp only [Except.ok.injEq, Prod.mk.injEq] at hok
      obtain ⟨hr, -⟩ := hok
      omega

/-- Witness for C9: the demonstration service at clock 0 — today's sunset
(64800) is still ahead, so one oracle call returns it. -/
theorem c9_next_sunset_future_witness :
    ∃ sr ss, demoService (dateOf 0) = some (sr, ss) ∧
      ((0 : Int) < ss → next_sunset utcTz demoService 0 = .ok (ss, 1)) ∧
      (ss ≤ 0 → ∃ sr2 ss2, demoService (dateOf 0 + 1) = some (sr2, ss2) ∧
        next_sunset utcTz demoService 0 = .ok (ss2, 2)) ∧
      (∀ r k, next_sunset utcTz demoService 0 = .ok (r, k) → 0 < r) :=
  c9_next_sunset_future utcTz demoService 0 (fun day =>
    ⟨day * daySecs + 21600, day * daySecs + 64800, rfl,
      by simp only [daySecs]; omega, by simp only [daySecs]; omega⟩)

/-- C10: the restore routine pairs devices with snapshot entries purely by
list position and never compares the recorded mac address with the
re-read one: its output is invariant under arbitrary changes to the
snapshot's mac fields (first conjunct), and calling it with the captured
devices in a different order applies each snapshot entry to whatever
device now sits at that position — the concrete swap shows device `macB`
receiving `macA`'s saved power and color and vice versa (second
conjunct). -/
theorem c10_restore_pairs_by_position :
    (∀ (devs : List Device) (ss1 ss2 : List SavedState),
        ss1.map (fun s => (s.2.1, s.2.2)) = ss2.map (fun s => (s.2.1, s.2.2)) →
        reset_device_states devs ss1 = reset_device_states devs ss2) ∧
    reset_device_states
        [⟨"macB", 0, (2, 2, 2, 2)⟩, ⟨"macA", 65535, (1, 1, 1, 1)⟩]
        (save_current_states
          [⟨"macA", 65535, (1, 1, 1, 1)⟩, ⟨"macB", 0, (2, 2, 2, 2)⟩]) =
      .ok [.setPower "macB" 65535, .setColor "macB" (1, 1, 1, 1),
        .setPower "macA" 0, .setColor "macA" (2, 2, 2, 2)] := by
  constructor
  · intro devs
    induction devs with
    | nil => intro ss1 ss2 _; rfl
    | cons d ds ih =>
      intro ss1 ss2 hmap
      cases ss1 with
      | nil =>
        cases ss2 with
        | nil => rfl
        | cons s2 t2 => exact absurd hmap (by simp)
      | cons s1 t1 =>
        cases ss2 with
        | nil => exact absurd hmap (by simp)
        | cons s2 t2 =>
          simp only [List.map_cons, List.cons.injEq, Prod.mk.injEq] at hmap
          obtain ⟨⟨hp, hc⟩, htail⟩ := hmap
          have hpair : reset_pair d s1 = reset_pair d s2 := by
            simp only [reset_pair, hp, hc]
          simp only [reset_device_states, ih t1 t2 htail, hpair]
  · rfl

/-- Witness for C10: two snapshot entries differing only in their recorded
mac produce identical restore commands. -/
theorem c10_restore_pairs_by_position_witness :
    reset_device_states [⟨"d", 1, (0, 0, 0, 0)⟩] [("x", 1, (0, 0, 0, 0))] =
      reset_device_states [⟨"d", 1, (0, 0, 0, 0)⟩] [("y", 1, (0, 0, 0, 0))] :=
  c10_restore_pairs_by_position.1 _ _ _ rfl
